import Mathlib

/-!
Shallow embedding of the AloOttawa payment server (`src/server.js`) and
verification of its specification.

The server is a relay between an HTTP client, the Stripe payment processor
and a Firestore document store.  We embed:

* the ledger store: the `users` collection (documents keyed by user id),
  the per-user `payment_methods` sub-collection, and the `payment_logs`
  collection;
* the webhook handler `app.post` on `/webhook` (lines 231-301);
* the orchestrator endpoints `/api/create-subscription` (lines 66-197) and
  `/api/cancel-subscription` (lines 200-228).

External services are modelled explicitly: Stripe-call outcomes are an
environment of `Except`-valued results, Firestore `update` of a missing
document is an error, and `FieldValue.arrayUnion` keeps set-union
semantics (an element already present is not added again).  Server time
appears as two parameters, mirroring the two time sources in the source:
`now : Nat` for `FieldValue.serverTimestamp()` fields and
`nowIso : String` for `new Date().toISOString()`.
-/

/-- One element of a user's `paymentHistory` array, as built at
`server.js` lines 263-267: date string, `amount_paid / 100`, invoice id.
The amount is a rational because the source divides the minor-unit
integer by 100. -/
structure PaymentEntry where
  date : String
  amount : ℚ
  invoiceId : String
deriving DecidableEq, Repr

/-- A document of the `users` collection.  Only the fields the server
reads or writes are modelled; every written field starts out absent. -/
structure UserRecord where
  userId : String
  stripeCustomerId : Option String := none
  subscriptionId : Option String := none
  subscriptionStatus : Option String := none
  cancelAtPeriodEnd : Option Bool := none
  lastPayment : Option Nat := none
  subscriptionEndedAt : Option Nat := none
  subscriptionUpdatedAt : Option Nat := none
  updatedAt : Option Nat := none
  paymentHistory : List PaymentEntry := []
deriving DecidableEq, Repr

/-- A document of a user's `payment_methods` sub-collection
(`server.js` lines 159-167). -/
structure SavedPaymentMethod where
  paymentMethodId : String
  brand : String
  last4 : String
  expMonth : Nat
  expYear : Nat
  isDefault : Bool
  createdAt : Nat
deriving DecidableEq, Repr

/-- A document of the `payment_logs` collection (`server.js` lines 171-179). -/
structure PaymentLog where
  userId : String
  customerId : String
  subscriptionId : String
  amount : ℚ
  currency : String
  status : String
  timestamp : Nat
deriving DecidableEq, Repr

/-- The Firestore state the server touches.  `users` is the `users`
collection in query order (`where(...).get()` returns its documents in
this order and the handlers take `docs[0]` as the first match);
`paymentMethods` pairs each saved card with the owning user id. -/
structure LedgerStore where
  users : List UserRecord
  paymentMethods : List (String × SavedPaymentMethod)
  paymentLogs : List PaymentLog
deriving DecidableEq, Repr

/-- The fields of a Stripe invoice object the webhook reads
(`server.js` lines 250-266): `invoice.id`, `invoice.customer`,
`invoice.amount_paid` (an integer amount in minor units). -/
structure InvoiceObj where
  id : String
  customer : String
  amount_paid : Int
deriving DecidableEq, Repr

/-- The field of a Stripe subscription object the webhook reads
(`server.js` line 282): `subscription.customer`. -/
structure SubscriptionObj where
  customer : String
deriving DecidableEq, Repr

/-- A decoded webhook event, classified as the `switch` at
`server.js` line 248 does: the three named types and a default. -/
inductive StripeEvent where
  | invoicePaymentSucceeded (invoice : InvoiceObj)
  | invoicePaymentFailed (invoice : InvoiceObj)
  | customerSubscriptionDeleted (sub : SubscriptionObj)
  | otherEvent (type : String)
deriving DecidableEq, Repr

/-- The webhook route's two possible responses: the acknowledgment
`received: true` (line 295) or the 400 text built at line 299. -/
inductive WebhookResponse where
  | received
  | webhookError (msg : String)
deriving DecidableEq, Repr

/-- `FieldValue.arrayUnion(e)` applied to an array field: Firestore adds
`e` at the end only when no equal element is already present. -/
def arrayUnion (xs : List PaymentEntry) (e : PaymentEntry) : List PaymentEntry :=
  if e ∈ xs then xs else xs ++ [e]

/-- `db.collection(usersName).where(stripeCustomerIdField, eq, cid).get()`
followed by `snapshot.docs[0].ref.update(f)` when the snapshot is
non-empty: the first document whose `stripeCustomerId` equals `cid` is
replaced by `f` of it, every other document is untouched, and an empty
snapshot leaves the collection unchanged. -/
def updateFirstMatch (cid : String) (f : UserRecord → UserRecord) :
    List UserRecord → List UserRecord
  | [] => []
  | u :: rest =>
    if u.stripeCustomerId = some cid then f u :: rest
    else u :: updateFirstMatch cid f rest

/-- Authentication step of the webhook route (`server.js` lines 237-243):
with a configured secret the raw body and signature header go through
`stripe.webhooks.constructEvent` (an abstract fallible verifier);
without one the raw body is parsed as JSON directly.  Either throw is an
`Except.error` carrying the message. -/
def webhookAuth (webhookSecret : Option String)
    (constructEvent : String → String → String → Except String StripeEvent)
    (parseJson : String → Except String StripeEvent)
    (rawBody sig : String) : Except String StripeEvent :=
  match webhookSecret with
  | some secret => constructEvent rawBody sig secret
  | none => parseJson rawBody

/-- The webhook route handler (`server.js` lines 231-301) after body
reading: `auth` is the outcome of verification/parsing, and the
dispatch on the event type mutates the store as the `switch` does.
A failed verification is caught and answered with the 400 text; every
authenticated event is acknowledged with `received`. -/
def handleWebhook (auth : Except String StripeEvent) (nowIso : String) (now : Nat)
    (s : LedgerStore) : WebhookResponse × LedgerStore :=
  match auth with
  | .error msg => (.webhookError ("Webhook Error: " ++ msg), s)
  | .ok event =>
    match event with
    | .invoicePaymentSucceeded invoice =>
        let entry : PaymentEntry := ⟨nowIso, (invoice.amount_paid : ℚ) / 100, invoice.id⟩
        let f : UserRecord → UserRecord := fun u =>
          { u with
              subscriptionStatus := some "active"
              lastPayment := some now
              paymentHistory := arrayUnion u.paymentHistory entry }
        (.received, { s with users := updateFirstMatch invoice.customer f s.users })
    | .invoicePaymentFailed _ => (.received, s)
    | .customerSubscriptionDeleted sub =>
        let f : UserRecord → UserRecord := fun u =>
          { u with
              subscriptionStatus := some "cancelled"
              subscriptionEndedAt := some now }
        (.received, { s with users := updateFirstMatch sub.customer f s.users })
    | .otherEvent _ => (.received, s)

example :
    handleWebhook (.ok (.invoicePaymentSucceeded ⟨"in_1", "cus_1", 999⟩)) "T0" 5
      ⟨[{ userId := "u1", stripeCustomerId := some "cus_1" }], [], []⟩ =
    (.received,
     ⟨[{ userId := "u1", stripeCustomerId := some "cus_1",
         subscriptionStatus := some "active", lastPayment := some 5,
         paymentHistory := [⟨"T0", 999 / 100, "in_1"⟩] }], [], []⟩) := by
  simp [handleWebhook, updateFirstMatch, arrayUnion]

/-- `db.collection(usersName).doc(uid)` document lookup (`get()`): the
document with id `uid`, when it exists. -/
def findUser (users : List UserRecord) (uid : String) : Option UserRecord :=
  match users with
  | [] => none
  | u :: rest => if u.userId == uid then some u else findUser rest uid

/-- `db.collection(usersName).doc(uid).update(f)`: Firestore `update`
rewrites the given fields of an existing document and throws
`No document to update` when no document with id `uid` exists. -/
def updateUserDoc (users : List UserRecord) (uid : String)
    (f : UserRecord → UserRecord) : Except String (List UserRecord) :=
  match users with
  | [] => .error "No document to update"
  | u :: rest =>
    if u.userId == uid then .ok (f u :: rest)
    else (updateUserDoc rest uid f).map (fun l => u :: l)

/-- Outcome of `stripe.paymentMethods.attach` (`server.js` line 114):
success, the Stripe error raised when the payment method is already
attached to a customer, or any other Stripe error. -/
inductive AttachResult where
  | attached
  | alreadyAttachedError (msg : String)
  | otherError (msg : String)
deriving DecidableEq, Repr

/-- The fields the handler reads from a successfully created
subscription (`server.js` lines 131-149): its id, its status, and the
client secret of the expanded `latest_invoice.payment_intent`. -/
structure SubCreated where
  id : String
  status : String
  clientSecret : String
deriving DecidableEq, Repr

/-- Card fields read from `stripe.paymentMethods.retrieve`
(`server.js` lines 156-164). -/
structure CardDetails where
  brand : String
  last4 : String
  expMonth : Nat
  expYear : Nat
deriving DecidableEq, Repr

/-- Outcomes of the Stripe calls made by `/api/create-subscription`,
one per call site, in source order.  `retrieveOk` abstracts
`stripe.customers.retrieve` on the stored customer id (line 83);
`createCustomerResult` abstracts `stripe.customers.create` (lines 88 and
101, the same call in both branches) and yields the new customer's id;
`setDefaultResult` abstracts `stripe.customers.update` (line 124);
`createSubResult` abstracts `stripe.subscriptions.create` (line 131);
`retrievePmResult` abstracts `stripe.paymentMethods.retrieve`
(line 156). -/
structure ProcEnv where
  retrieveOk : Bool
  createCustomerResult : Except String String
  attachResult : AttachResult
  setDefaultResult : Except String Unit
  createSubResult : Except String SubCreated
  retrievePmResult : Except String CardDetails
deriving Repr

/-- Processor-side side effects of one `/api/create-subscription` call:
how many `stripe.customers.create` and `stripe.subscriptions.create`
calls completed. -/
structure ProcEffects where
  customersCreated : Nat
  subscriptionsCreated : Nat
deriving DecidableEq, Repr

/-- Request body of `/api/create-subscription` (`server.js` line 68). -/
structure CreateSubRequest where
  paymentMethodId : String
  priceId : String
  userId : String
  saveCard : Bool
  userEmail : String
  userName : String
deriving DecidableEq, Repr

/-- Response of `/api/create-subscription`: the success payload of
lines 182-188 or the 400 error payload of lines 192-195. -/
inductive CreateSubResponse where
  | success (subscriptionId customerId clientSecret status : String)
  | failure (error : String)
deriving DecidableEq, Repr

/-- The `/api/create-subscription` handler (`server.js` lines 66-197).
Returns the HTTP response, the ledger store after the call, and the
processor-side effect counters.  The single `try/catch` of the source
appears as the error branches: the first failing step aborts the rest
and returns its message, keeping whatever side effects already
happened.  The inner attach `catch` (lines 118-121) only logs, so every
`attachResult` continues identically. -/
def createSubscription (env : ProcEnv) (now : Nat) (req : CreateSubRequest)
    (s : LedgerStore) : CreateSubResponse × LedgerStore × ProcEffects :=
  -- Step 1: read the user document and its stored Stripe customer id.
  let userDoc := findUser s.users req.userId
  let existingCustomerId : Option String := userDoc.bind (fun u => u.stripeCustomerId)
  -- Step 1 continued: get or create the customer.  The pair carries the
  -- resolved customer id and how many customers were created (0 or 1).
  let custStep : Except String (String × Nat) :=
    match existingCustomerId with
    | some cid =>
        if env.retrieveOk then .ok (cid, 0)
        else
          match env.createCustomerResult with
          | .ok newId => .ok (newId, 1)
          | .error m => .error m
    | none =>
        match env.createCustomerResult with
        | .ok newId => .ok (newId, 1)
        | .error m => .error m
  match custStep with
  | .error m => (.failure m, s, ⟨0, 0⟩)
  | .ok (customerId, created) =>
    -- Step 2: attach the payment method; the catch swallows every error,
    -- so each outcome falls through to Step 3.
    let _attachLogged : Unit :=
      match env.attachResult with
      | .attached => ()
      | .alreadyAttachedError _ => ()
      | .otherError _ => ()
    -- Step 3: set the default payment method.
    match env.setDefaultResult with
    | .error m => (.failure m, s, ⟨created, 0⟩)
    | .ok _ =>
      -- Step 4: create the subscription (Step 5's client secret is a
      -- field of the expanded result).
      match env.createSubResult with
      | .error m => (.failure m, s, ⟨created, 0⟩)
      | .ok sub =>
        -- Step 6: persist ids and status onto the user document.
        let persist := updateUserDoc s.users req.userId (fun u =>
          { u with
              stripeCustomerId := some customerId
              subscriptionId := some sub.id
              subscriptionStatus := some sub.status
              subscriptionUpdatedAt := some now })
        match persist with
        | .error m => (.failure m, s, ⟨created, 1⟩)
        | .ok users1 =>
          let s1 := { s with users := users1 }
          -- Step 7: optionally save the card to the sub-collection.
          let step7 : Except String (List (String × SavedPaymentMethod)) :=
            if req.saveCard then
              match env.retrievePmResult with
              | .error m => .error m
              | .ok card =>
                  .ok (s1.paymentMethods ++
                       [(req.userId,
                         ⟨req.paymentMethodId, card.brand, card.last4,
                          card.expMonth, card.expYear, true, now⟩)])
            else .ok s1.paymentMethods
          match step7 with
          | .error m => (.failure m, s1, ⟨created, 1⟩)
          | .ok pms2 =>
            let s2 := { s1 with paymentMethods := pms2 }
            -- Step 8: append the payment log with the fixed amount 9.99 CAD.
            let s3 := { s2 with paymentLogs := s2.paymentLogs ++
                  [⟨req.userId, customerId, sub.id, 999 / 100, "cad", sub.status, now⟩] }
            -- Step 9: success payload.
            (.success sub.id customerId sub.clientSecret sub.status, s3, ⟨created, 1⟩)

/-- A processor-side subscription, with the one writable field
`/api/cancel-subscription` touches. -/
structure ProcSubscription where
  id : String
  cancel_at_period_end : Bool
deriving DecidableEq, Repr

/-- Processor-side lookup of a subscription by id. -/
def findSub (subs : List ProcSubscription) (sid : String) : Option ProcSubscription :=
  match subs with
  | [] => none
  | p :: rest => if p.id == sid then some p else findSub rest sid

/-- `stripe.subscriptions.update(sid, ...)` setting
`cancel_at_period_end` to `true` (`server.js` lines 205-207): rewrites
the first subscription with id `sid` and returns it; an unknown id is a
Stripe error. -/
def updateProcSubscription (subs : List ProcSubscription) (sid : String) :
    Except String (List ProcSubscription × ProcSubscription) :=
  match subs with
  | [] => .error ("No such subscription: " ++ sid)
  | p :: rest =>
    if p.id == sid then
      .ok ({ p with cancel_at_period_end := true } :: rest,
           { p with cancel_at_period_end := true })
    else (updateProcSubscription rest sid).map (fun r => (p :: r.1, r.2))

/-- Response of `/api/cancel-subscription`: the success payload of
lines 216-219 or the 400 error payload of lines 223-226. -/
inductive CancelResponse where
  | success (message : String)
  | failure (error : String)
deriving DecidableEq, Repr

/-- The `/api/cancel-subscription` handler (`server.js` lines 200-228):
set `cancel_at_period_end` on the processor subscription, then mark the
local user document `canceling` with `cancelAtPeriodEnd` true.  Any
throw is caught and returned as the 400 payload, keeping the effects of
the steps already run. -/
def cancelSubscription (procSubs : List ProcSubscription) (now : Nat)
    (subscriptionId userId : String) (s : LedgerStore) :
    CancelResponse × List ProcSubscription × LedgerStore :=
  match updateProcSubscription procSubs subscriptionId with
  | .error m => (.failure m, procSubs, s)
  | .ok (procSubs2, _) =>
    let persist := updateUserDoc s.users userId (fun u =>
      { u with
          subscriptionStatus := some "canceling"
          cancelAtPeriodEnd := some true
          updatedAt := some now })
    match persist with
    | .error m => (.failure m, procSubs2, s)
    | .ok users2 =>
      (.success "Subscription will be cancelled at period end",
       procSubs2, { s with users := users2 })

/-- Relation between a store before and after an operation: each user
document keeps its position and its old payment history is a prefix of
the new one. -/
def historyExtended (s t : LedgerStore) : Prop :=
  List.Forall₂ (fun u v => u.paymentHistory <+: v.paymentHistory) s.users t.users

theorem updateFirstMatch_no_match (cid : String) (f : UserRecord → UserRecord)
    (l : List UserRecord) (h : ∀ v ∈ l, v.stripeCustomerId ≠ some cid) :
    updateFirstMatch cid f l = l := by
  induction l with
  | nil => rfl
  | cons u rest ih =>
    rw [updateFirstMatch, if_neg (h u (by simp)), ih (fun v hv => h v (by simp [hv]))]

theorem updateFirstMatch_append (cid : String) (f : UserRecord → UserRecord)
    (pre post : List UserRecord) (u : UserRecord)
    (hpre : ∀ v ∈ pre, v.stripeCustomerId ≠ some cid)
    (hu : u.stripeCustomerId = some cid) :
    updateFirstMatch cid f (pre ++ u :: post) = pre ++ f u :: post := by
  induction pre with
  | nil => simp [updateFirstMatch, hu]
  | cons v rest ih =>
    rw [List.cons_append, updateFirstMatch, if_neg (hpre v (by simp)),
      ih (fun w hw => hpre w (by simp [hw])), List.cons_append]

/-- C1: with a configured webhook signing secret, a request whose
signature verification fails is answered with the 400 webhook-error
response and the ledger store is left unchanged. -/
theorem webhook_invalid_signature_rejected
    (secret rawBody sig nowIso : String) (now : Nat) (s : LedgerStore)
    (construct : String → String → String → Except String StripeEvent)
    (parse : String → Except String StripeEvent) (m : String)
    (hfail : construct rawBody sig secret = .error m) :
    handleWebhook (webhookAuth (some secret) construct parse rawBody sig) nowIso now s =
      (.webhookError ("Webhook Error: " ++ m), s) := by
  simp [webhookAuth, hfail, handleWebhook]

theorem webhook_invalid_signature_rejected_witness :
    (fun (_ _ _ : String) =>
        (Except.error "No signatures found" : Except String StripeEvent))
      "rawBody" "t=1,v1=bad" "whsec_1" = Except.error "No signatures found" ∧
    handleWebhook
        (webhookAuth (some "whsec_1")
          (fun _ _ _ => .error "No signatures found")
          (fun _ => .ok (.otherEvent "ping")) "rawBody" "t=1,v1=bad")
        "T0" 3 ⟨[{ userId := "u1" }], [], []⟩ =
      (.webhookError ("Webhook Error: " ++ "No signatures found"),
       ⟨[{ userId := "u1" }], [], []⟩) :=
  ⟨rfl,
   webhook_invalid_signature_rejected "whsec_1" "rawBody" "t=1,v1=bad" "T0" 3
     ⟨[{ userId := "u1" }], [], []⟩ (fun _ _ _ => .error "No signatures found")
     (fun _ => .ok (.otherEvent "ping")) "No signatures found" rfl⟩

/-- C4: an authenticated `invoice.payment_succeeded` event whose
customer id matches no user record mutates nothing and is still
acknowledged with `received`. -/
theorem webhook_payment_succeeded_no_match
    (inv : InvoiceObj) (nowIso : String) (now : Nat) (s : LedgerStore)
    (h : ∀ v ∈ s.users, v.stripeCustomerId ≠ some inv.customer) :
    handleWebhook (.ok (.invoicePaymentSucceeded inv)) nowIso now s = (.received, s) := by
  simp [handleWebhook, updateFirstMatch_no_match inv.customer _ s.users h]

theorem webhook_payment_succeeded_no_match_witness :
    (∀ v ∈ ({ users := [{ userId := "u1", stripeCustomerId := some "cus_1" }],
              paymentMethods := [], paymentLogs := [] } : LedgerStore).users,
        v.stripeCustomerId ≠ some "cus_2") ∧
    handleWebhook (.ok (.invoicePaymentSucceeded ⟨"in_9", "cus_2", 500⟩)) "T0" 3
        ⟨[{ userId := "u1", stripeCustomerId := some "cus_1" }], [], []⟩ =
      (.received, ⟨[{ userId := "u1", stripeCustomerId := some "cus_1" }], [], []⟩) :=
  ⟨by decide,
   webhook_payment_succeeded_no_match ⟨"in_9", "cus_2", 500⟩ "T0" 3
     ⟨[{ userId := "u1", stripeCustomerId := some "cus_1" }], [], []⟩ (by decide)⟩

/-- An authenticated `invoice.payment_succeeded` event whose customer id
first matches at position `pre.length` rewrites exactly that document,
with the history going through `arrayUnion`. -/
theorem handleWebhook_succeeded_first_match
    (inv : InvoiceObj) (nowIso : String) (now : Nat)
    (pre post : List UserRecord) (u : UserRecord) (s : LedgerStore)
    (hs : s.users = pre ++ u :: post)
    (hpre : ∀ v ∈ pre, v.stripeCustomerId ≠ some inv.customer)
    (hu : u.stripeCustomerId = some inv.customer) :
    handleWebhook (.ok (.invoicePaymentSucceeded inv)) nowIso now s =
      (.received,
       { s with users := pre ++
           { u with subscriptionStatus := some "active",
                    lastPayment := some now,
                    paymentHistory := arrayUnion u.paymentHistory
                      ⟨nowIso, (inv.amount_paid : ℚ) / 100, inv.id⟩ } :: post }) := by
  simp [handleWebhook, hs, updateFirstMatch_append inv.customer _ pre post u hpre hu]

/-- C2 (amended): an authenticated `invoice.payment_succeeded` event
whose customer id matches at least one record updates exactly the first
match — status `active`, last-payment stamped — and the history entry
with date, paid amount over 100 and invoice id is appended unless an
equal entry is already present, in which case the history is unchanged
(Firestore array-union semantics). -/
theorem webhook_payment_succeeded_updates_first_match
    (inv : InvoiceObj) (nowIso : String) (now : Nat)
    (pre post : List UserRecord) (u : UserRecord) (s : LedgerStore)
    (hs : s.users = pre ++ u :: post)
    (hpre : ∀ v ∈ pre, v.stripeCustomerId ≠ some inv.customer)
    (hu : u.stripeCustomerId = some inv.customer) :
    handleWebhook (.ok (.invoicePaymentSucceeded inv)) nowIso now s =
      (.received,
       { s with users := pre ++
           { u with subscriptionStatus := some "active",
                    lastPayment := some now,
                    paymentHistory :=
                      if (⟨nowIso, (inv.amount_paid : ℚ) / 100, inv.id⟩ : PaymentEntry)
                          ∈ u.paymentHistory
                      then u.paymentHistory
                      else u.paymentHistory ++
                        [⟨nowIso, (inv.amount_paid : ℚ) / 100, inv.id⟩] } :: post }) := by
  rw [handleWebhook_succeeded_first_match inv nowIso now pre post u s hs hpre hu]
  simp only [arrayUnion]

theorem webhook_payment_succeeded_updates_first_match_witness :
    handleWebhook (.ok (.invoicePaymentSucceeded ⟨"in_1", "cus_1", 1250⟩)) "T1" 7
        ⟨[{ userId := "u0", stripeCustomerId := some "cus_0" },
          { userId := "u1", stripeCustomerId := some "cus_1" }], [], []⟩ =
      (.received,
       ⟨[{ userId := "u0", stripeCustomerId := some "cus_0" },
         { userId := "u1", stripeCustomerId := some "cus_1",
           subscriptionStatus := some "active", lastPayment := some 7,
           paymentHistory :=
             if (⟨"T1", ((1250 : Int) : ℚ) / 100, "in_1"⟩ : PaymentEntry) ∈ ([] : List PaymentEntry)
             then []
             else [] ++ [⟨"T1", ((1250 : Int) : ℚ) / 100, "in_1"⟩] }], [], []⟩) :=
  webhook_payment_succeeded_updates_first_match ⟨"in_1", "cus_1", 1250⟩ "T1" 7
    [{ userId := "u0", stripeCustomerId := some "cus_0" }] []
    { userId := "u1", stripeCustomerId := some "cus_1" } _ rfl (by decide) rfl

/-- C2 counterexample: when the matching user's history already holds an
entry equal to the one the handler builds (same date string, amount and
invoice id), `arrayUnion` adds nothing — after the event the history
still holds exactly its single old entry, so no entry was appended. -/
theorem webhook_payment_succeeded_duplicate_not_appended :
    ((handleWebhook (.ok (.invoicePaymentSucceeded ⟨"in_1", "cus_1", 999⟩)) "T0" 5
        ⟨[{ userId := "u1", stripeCustomerId := some "cus_1",
            paymentHistory := [⟨"T0", ((999 : Int) : ℚ) / 100, "in_1"⟩] }],
          [], []⟩).2.users.map (fun u => u.paymentHistory)) =
      [[⟨"T0", ((999 : Int) : ℚ) / 100, "in_1"⟩]] := by
  simp [handleWebhook, updateFirstMatch, arrayUnion]

/-- C3 (amended): the same `invoice.payment_succeeded` event processed
twice yields two history entries for the invoice provided the two
processing timestamps differ and neither entry was already present;
the second entry lands after the first. -/
theorem webhook_duplicate_delivery_two_entries
    (inv : InvoiceObj) (iso1 iso2 : String) (now1 now2 : Nat)
    (pre post : List UserRecord) (u : UserRecord) (s : LedgerStore)
    (hs : s.users = pre ++ u :: post)
    (hpre : ∀ v ∈ pre, v.stripeCustomerId ≠ some inv.customer)
    (hu : u.stripeCustomerId = some inv.customer)
    (hne : iso1 ≠ iso2)
    (h1 : (⟨iso1, (inv.amount_paid : ℚ) / 100, inv.id⟩ : PaymentEntry) ∉ u.paymentHistory)
    (h2 : (⟨iso2, (inv.amount_paid : ℚ) / 100, inv.id⟩ : PaymentEntry) ∉ u.paymentHistory) :
    handleWebhook (.ok (.invoicePaymentSucceeded inv)) iso2 now2
        (handleWebhook (.ok (.invoicePaymentSucceeded inv)) iso1 now1 s).2 =
      (.received,
       { s with users := pre ++
           { u with subscriptionStatus := some "active",
                    lastPayment := some now2,
                    paymentHistory := u.paymentHistory ++
                      [⟨iso1, (inv.amount_paid : ℚ) / 100, inv.id⟩,
                       ⟨iso2, (inv.amount_paid : ℚ) / 100, inv.id⟩] } :: post }) ∧
    2 ≤ List.countP (fun e => e.invoiceId == inv.id)
        (u.paymentHistory ++
         [⟨iso1, (inv.amount_paid : ℚ) / 100, inv.id⟩,
          ⟨iso2, (inv.amount_paid : ℚ) / 100, inv.id⟩]) := by
  have hne2 : (⟨iso2, (inv.amount_paid : ℚ) / 100, inv.id⟩ : PaymentEntry) ≠
      ⟨iso1, (inv.amount_paid : ℚ) / 100, inv.id⟩ := by
    intro h
    exact hne (by injection h with hd hamt hinv; exact hd.symm)
  have ha1 : arrayUnion u.paymentHistory ⟨iso1, (inv.amount_paid : ℚ) / 100, inv.id⟩
      = u.paymentHistory ++ [⟨iso1, (inv.amount_paid : ℚ) / 100, inv.id⟩] := by
    simp only [arrayUnion]
    rw [if_neg h1]
  have ha2 : arrayUnion
        (u.paymentHistory ++ [⟨iso1, (inv.amount_paid : ℚ) / 100, inv.id⟩])
        ⟨iso2, (inv.amount_paid : ℚ) / 100, inv.id⟩
      = u.paymentHistory ++
        [⟨iso1, (inv.amount_paid : ℚ) / 100, inv.id⟩,
         ⟨iso2, (inv.amount_paid : ℚ) / 100, inv.id⟩] := by
    simp only [arrayUnion]
    rw [if_neg (by simp [List.mem_append, h2, hne2]), List.append_assoc]
    rfl
  constructor
  · rw [handleWebhook_succeeded_first_match inv iso1 now1 pre post u s hs hpre hu]
    rw [handleWebhook_succeeded_first_match inv iso2 now2 pre post
        { u with subscriptionStatus := some "active", lastPayment := some now1,
                 paymentHistory := arrayUnion u.paymentHistory
                   ⟨iso1, (inv.amount_paid : ℚ) / 100, inv.id⟩ }
        _ rfl hpre hu]
    simp [ha1, ha2]
  · rw [List.countP_append]
    have : List.countP (fun e => e.invoiceId == inv.id)
        [(⟨iso1, (inv.amount_paid : ℚ) / 100, inv.id⟩ : PaymentEntry),
         ⟨iso2, (inv.amount_paid : ℚ) / 100, inv.id⟩] = 2 := by
      simp [List.countP_cons]
    omega

theorem webhook_duplicate_delivery_two_entries_witness :
    handleWebhook (.ok (.invoicePaymentSucceeded ⟨"in_1", "cus_1", 999⟩)) "T1" 6
        (handleWebhook (.ok (.invoicePaymentSucceeded ⟨"in_1", "cus_1", 999⟩)) "T0" 5
          ⟨[{ userId := "u1", stripeCustomerId := some "cus_1" }], [], []⟩).2 =
      (.received,
       ⟨[{ userId := "u1", stripeCustomerId := some "cus_1",
           subscriptionStatus := some "active", lastPayment := some 6,
           paymentHistory :=
             [] ++ [⟨"T0", ((999 : Int) : ℚ) / 100, "in_1"⟩,
                    ⟨"T1", ((999 : Int) : ℚ) / 100, "in_1"⟩] }], [], []⟩) ∧
    2 ≤ List.countP (fun e => e.invoiceId == "in_1")
        (([] : List PaymentEntry) ++
         [⟨"T0", ((999 : Int) : ℚ) / 100, "in_1"⟩,
          ⟨"T1", ((999 : Int) : ℚ) / 100, "in_1"⟩]) :=
  webhook_duplicate_delivery_two_entries ⟨"in_1", "cus_1", 999⟩ "T0" "T1" 5 6
    [] [] { userId := "u1", stripeCustomerId := some "cus_1" } _ rfl (by decide) rfl
    (by decide) (by decide) (by decide)

/-- C3 counterexample: delivered twice and processed at the same
timestamp string, the two history entries are equal, `arrayUnion` drops
the second one, and the history holds one entry, not two. -/
theorem webhook_duplicate_delivery_same_timestamp_one_entry :
    ((handleWebhook (.ok (.invoicePaymentSucceeded ⟨"in_1", "cus_1", 999⟩)) "T0" 6
        (handleWebhook (.ok (.invoicePaymentSucceeded ⟨"in_1", "cus_1", 999⟩)) "T0" 5
          ⟨[{ userId := "u1", stripeCustomerId := some "cus_1" }],
            [], []⟩).2).2.users.map (fun u => u.paymentHistory.length)) = [1] := by
  simp [handleWebhook, updateFirstMatch, arrayUnion]

/-- C5: an authenticated `customer.subscription.deleted` event whose
customer id matches exactly one user record sets that record's status
to `cancelled` and stamps `subscriptionEndedAt`; with zero matches every
record is unchanged. -/
theorem webhook_subscription_deleted_updates :
    (∀ (sub : SubscriptionObj) (nowIso : String) (now : Nat)
       (pre post : List UserRecord) (u : UserRecord) (s : LedgerStore),
       s.users = pre ++ u :: post →
       (∀ v ∈ pre, v.stripeCustomerId ≠ some sub.customer) →
       (∀ v ∈ post, v.stripeCustomerId ≠ some sub.customer) →
       u.stripeCustomerId = some sub.customer →
       handleWebhook (.ok (.customerSubscriptionDeleted sub)) nowIso now s =
         (.received,
          { s with users := pre ++
              { u with subscriptionStatus := some "cancelled",
                       subscriptionEndedAt := some now } :: post })) ∧
    (∀ (sub : SubscriptionObj) (nowIso : String) (now : Nat) (s : LedgerStore),
       (∀ v ∈ s.users, v.stripeCustomerId ≠ some sub.customer) →
       handleWebhook (.ok (.customerSubscriptionDeleted sub)) nowIso now s =
         (.received, s)) := by
  constructor
  · intro sub nowIso now pre post u s hs hpre _hpost hu
    simp [handleWebhook, hs, updateFirstMatch_append sub.customer _ pre post u hpre hu]
  · intro sub nowIso now s h
    simp [handleWebhook, updateFirstMatch_no_match sub.customer _ s.users h]

theorem updateUserDoc_of_findUser_none (users : List UserRecord) (uid : String)
    (f : UserRecord → UserRecord) (h : findUser users uid = none) :
    updateUserDoc users uid f = .error "No document to update" := by
  induction users with
  | nil => rfl
  | cons u rest ih =>
    rw [findUser] at h
    cases hq : u.userId == uid with
    | true =>
      rw [hq] at h
      simp at h
    | false =>
      rw [hq] at h
      simp only [Bool.false_eq_true, if_false] at h
      simp [updateUserDoc, hq, ih h, Except.map]

/-- C6 (amended): create-subscription treats every attach failure as
success: the inner catch only logs, so the response, the store and the
effect counters are the same for an already-attached error, for any
other attach error, and for a successful attach — the remaining steps
always run. -/
theorem createSubscription_ignores_attach_outcome
    (env : ProcEnv) (a : AttachResult) (now : Nat) (req : CreateSubRequest)
    (s : LedgerStore) :
    createSubscription { env with attachResult := a } now req s =
      createSubscription { env with attachResult := .attached } now req s := rfl

/-- C6 counterexample: when the attach step fails with an error that is
not an already-attached error (a declined card), the call still runs
every remaining step and answers with the success payload, not an error
response. -/
theorem createSubscription_attach_other_error_not_fatal :
    createSubscription
        ⟨true, .ok "cus_new", .otherError "Your card was declined.", .ok (),
         .ok ⟨"sub_1", "incomplete", "pi_secret"⟩, .ok ⟨"visa", "4242", 12, 2030⟩⟩
        5 ⟨"pm_1", "price_1", "u1", false, "a@b.com", "A"⟩
        ⟨[{ userId := "u1" }], [], []⟩ =
      (.success "sub_1" "cus_new" "pi_secret" "incomplete",
       ⟨[{ userId := "u1", stripeCustomerId := some "cus_new",
           subscriptionId := some "sub_1", subscriptionStatus := some "incomplete",
           subscriptionUpdatedAt := some 5 }],
        [],
        [⟨"u1", "cus_new", "sub_1", 999 / 100, "cad", "incomplete", 5⟩]⟩,
       ⟨1, 1⟩) := rfl

/-- C7: a create-subscription call for a user record holding no
processor customer id (with customer creation, default-setting and
subscription creation succeeding) creates exactly one customer and one
subscription; for a user record holding a customer id that retrieves
successfully it creates zero customers. -/
theorem createSubscription_customer_creation_counts :
    (∀ (env : ProcEnv) (now : Nat) (req : CreateSubRequest) (s : LedgerStore)
       (u : UserRecord) (newId : String) (sub : SubCreated),
       findUser s.users req.userId = some u →
       u.stripeCustomerId = none →
       env.createCustomerResult = .ok newId →
       env.setDefaultResult = .ok () →
       env.createSubResult = .ok sub →
       (createSubscription env now req s).2.2 = ⟨1, 1⟩) ∧
    (∀ (env : ProcEnv) (now : Nat) (req : CreateSubRequest) (s : LedgerStore)
       (u : UserRecord) (cid : String),
       findUser s.users req.userId = some u →
       u.stripeCustomerId = some cid →
       env.retrieveOk = true →
       (createSubscription env now req s).2.2.customersCreated = 0) := by
  constructor
  · intro env now req s u newId sub hfind hcid hcc hsd hcs
    simp only [createSubscription, hfind, Option.bind, hcid, hcc, hsd, hcs]
    split <;> try rfl
    split <;> rfl
  · intro env now req s u cid hfind hcid hro
    simp only [createSubscription, hfind, Option.bind, hcid, hro, if_true]
    split <;> try rfl
    split <;> try rfl
    split <;> try rfl
    split <;> rfl

theorem createSubscription_customer_creation_counts_witness :
    (createSubscription
        ⟨true, .ok "cus_new", .attached, .ok (),
         .ok ⟨"sub_1", "incomplete", "pi_secret"⟩, .ok ⟨"visa", "4242", 12, 2030⟩⟩
        5 ⟨"pm_1", "price_1", "u1", false, "a@b.com", "A"⟩
        ⟨[{ userId := "u1" }], [], []⟩).2.2 = ⟨1, 1⟩ ∧
    (createSubscription
        ⟨true, .ok "cus_new", .attached, .ok (),
         .ok ⟨"sub_1", "incomplete", "pi_secret"⟩, .ok ⟨"visa", "4242", 12, 2030⟩⟩
        5 ⟨"pm_1", "price_1", "u1", false, "a@b.com", "A"⟩
        ⟨[{ userId := "u1", stripeCustomerId := some "cus_1" }],
          [], []⟩).2.2.customersCreated = 0 :=
  ⟨createSubscription_customer_creation_counts.1
     ⟨true, .ok "cus_new", .attached, .ok (),
      .ok ⟨"sub_1", "incomplete", "pi_secret"⟩, .ok ⟨"visa", "4242", 12, 2030⟩⟩
     5 ⟨"pm_1", "price_1", "u1", false, "a@b.com", "A"⟩
     ⟨[{ userId := "u1" }], [], []⟩
     { userId := "u1" } "cus_new" ⟨"sub_1", "incomplete", "pi_secret"⟩
     rfl rfl rfl rfl rfl,
   createSubscription_customer_creation_counts.2
     ⟨true, .ok "cus_new", .attached, .ok (),
      .ok ⟨"sub_1", "incomplete", "pi_secret"⟩, .ok ⟨"visa", "4242", 12, 2030⟩⟩
     5 ⟨"pm_1", "price_1", "u1", false, "a@b.com", "A"⟩
     ⟨[{ userId := "u1", stripeCustomerId := some "cus_1" }], [], []⟩
     { userId := "u1", stripeCustomerId := some "cus_1" } "cus_1"
     rfl rfl rfl⟩

/-- C10: a create-subscription request for a user id with no ledger
document at all still creates the processor customer and the
subscription, and then fails: the persist step's update of a
nonexistent document throws, the 400 response carries the message, and
the store is unchanged. -/
theorem createSubscription_missing_user_doc_fails
    (env : ProcEnv) (now : Nat) (req : CreateSubRequest) (s : LedgerStore)
    (newId : String) (sub : SubCreated)
    (hfind : findUser s.users req.userId = none)
    (hcc : env.createCustomerResult = .ok newId)
    (hsd : env.setDefaultResult = .ok ())
    (hcs : env.createSubResult = .ok sub) :
    createSubscription env now req s =
      (.failure "No document to update", s, ⟨1, 1⟩) := by
  simp only [createSubscription, hfind, Option.bind, hcc, hsd, hcs,
    updateUserDoc_of_findUser_none]

theorem createSubscription_missing_user_doc_fails_witness :
    createSubscription
        ⟨true, .ok "cus_new", .attached, .ok (),
         .ok ⟨"sub_1", "incomplete", "pi_secret"⟩, .ok ⟨"visa", "4242", 12, 2030⟩⟩
        5 ⟨"pm_1", "price_1", "u1", true, "a@b.com", "A"⟩ ⟨[], [], []⟩ =
      (.failure "No document to update", ⟨[], [], []⟩, ⟨1, 1⟩) :=
  createSubscription_missing_user_doc_fails
    ⟨true, .ok "cus_new", .attached, .ok (),
     .ok ⟨"sub_1", "incomplete", "pi_secret"⟩, .ok ⟨"visa", "4242", 12, 2030⟩⟩
    5 ⟨"pm_1", "price_1", "u1", true, "a@b.com", "A"⟩ ⟨[], [], []⟩
    "cus_new" ⟨"sub_1", "incomplete", "pi_secret"⟩ rfl rfl rfl rfl

theorem webhook_subscription_deleted_updates_witness :
    handleWebhook (.ok (.customerSubscriptionDeleted ⟨"cus_1"⟩)) "T0" 9
        ⟨[{ userId := "u0", stripeCustomerId := some "cus_0" },
          { userId := "u1", stripeCustomerId := some "cus_1" }], [], []⟩ =
      (.received,
       ⟨[{ userId := "u0", stripeCustomerId := some "cus_0" },
         { userId := "u1", stripeCustomerId := some "cus_1",
           subscriptionStatus := some "cancelled",
           subscriptionEndedAt := some 9 }], [], []⟩) ∧
    handleWebhook (.ok (.customerSubscriptionDeleted ⟨"cus_7"⟩)) "T0" 9
        ⟨[{ userId := "u0", stripeCustomerId := some "cus_0" }], [], []⟩ =
      (.received, ⟨[{ userId := "u0", stripeCustomerId := some "cus_0" }], [], []⟩) :=
  ⟨webhook_subscription_deleted_updates.1 ⟨"cus_1"⟩ "T0" 9
     [{ userId := "u0", stripeCustomerId := some "cus_0" }] []
     { userId := "u1", stripeCustomerId := some "cus_1" } _
     rfl (by decide) (by decide) rfl,
   webhook_subscription_deleted_updates.2 ⟨"cus_7"⟩ "T0" 9
     ⟨[{ userId := "u0", stripeCustomerId := some "cus_0" }], [], []⟩ (by decide)⟩

theorem updateProcSubscription_of_findSub (subs : List ProcSubscription)
    (sid : String) (p : ProcSubscription) (h : findSub subs sid = some p) :
    ∃ subs2, updateProcSubscription subs sid =
        .ok (subs2, { p with cancel_at_period_end := true }) ∧
      findSub subs2 sid = some { p with cancel_at_period_end := true } := by
  induction subs with
  | nil => simp [findSub] at h
  | cons q rest ih =>
    rw [findSub] at h
    cases hq : q.id == sid with
    | true =>
      rw [hq] at h
      simp only [if_true] at h
      injection h with h
      subst h
      refine ⟨{ q with cancel_at_period_end := true } :: rest, ?_, ?_⟩
      · rw [updateProcSubscription]
        simp [hq]
      · rw [findSub]
        simp [hq]
    | false =>
      rw [hq] at h
      simp only [Bool.false_eq_true, if_false] at h
      obtain ⟨subs2, h1, h2⟩ := ih h
      refine ⟨q :: subs2, ?_, ?_⟩
      · rw [updateProcSubscription]
        simp [hq, h1, Except.map]
      · rw [findSub]
        simp [hq, h2]

theorem updateUserDoc_of_findUser_some (users : List UserRecord) (uid : String)
    (f : UserRecord → UserRecord) (u : UserRecord)
    (hf : ∀ v, (f v).userId = v.userId) (h : findUser users uid = some u) :
    ∃ users2, updateUserDoc users uid f = .ok users2 ∧
      findUser users2 uid = some (f u) := by
  induction users with
  | nil => simp [findUser] at h
  | cons w rest ih =>
    rw [findUser] at h
    cases hq : w.userId == uid with
    | true =>
      rw [hq] at h
      simp only [if_true] at h
      injection h with h
      subst h
      refine ⟨f w :: rest, ?_, ?_⟩
      · rw [updateUserDoc]
        simp [hq]
      · rw [findUser]
        simp [hf w, hq]
    | false =>
      rw [hq] at h
      simp only [Bool.false_eq_true, if_false] at h
      obtain ⟨users2, h1, h2⟩ := ih h
      refine ⟨w :: users2, ?_, ?_⟩
      · rw [updateUserDoc]
        simp [hq, h1, Except.map]
      · rw [findUser]
        simp [hq, h2]

/-- C8: cancel-subscription is idempotent: with the subscription known
to the processor and the user document present, two successive calls for
the same subscription id and user id both answer the success payload,
both leave the processor subscription with `cancel_at_period_end` true,
and both leave the local record with status `canceling` and
`cancelAtPeriodEnd` true. -/
theorem cancelSubscription_idempotent
    (procSubs : List ProcSubscription) (now1 now2 : Nat) (sid uid : String)
    (s : LedgerStore) (p : ProcSubscription) (u : UserRecord)
    (hp : findSub procSubs sid = some p)
    (hu : findUser s.users uid = some u) :
    (cancelSubscription procSubs now1 sid uid s).1 =
        .success "Subscription will be cancelled at period end" ∧
    (cancelSubscription (cancelSubscription procSubs now1 sid uid s).2.1 now2 sid uid
        (cancelSubscription procSubs now1 sid uid s).2.2).1 =
      .success "Subscription will be cancelled at period end" ∧
    (∃ q, findSub (cancelSubscription procSubs now1 sid uid s).2.1 sid = some q ∧
       q.cancel_at_period_end = true) ∧
    (∃ q, findSub (cancelSubscription (cancelSubscription procSubs now1 sid uid s).2.1
          now2 sid uid (cancelSubscription procSubs now1 sid uid s).2.2).2.1 sid =
        some q ∧ q.cancel_at_period_end = true) ∧
    (∃ v, findUser (cancelSubscription procSubs now1 sid uid s).2.2.users uid = some v ∧
       v.subscriptionStatus = some "canceling" ∧ v.cancelAtPeriodEnd = some true) ∧
    (∃ v, findUser (cancelSubscription (cancelSubscription procSubs now1 sid uid s).2.1
          now2 sid uid (cancelSubscription procSubs now1 sid uid s).2.2).2.2.users uid =
        some v ∧ v.subscriptionStatus = some "canceling" ∧
       v.cancelAtPeriodEnd = some true) := by
  obtain ⟨subs2, hp1, hp2⟩ := updateProcSubscription_of_findSub procSubs sid p hp
  obtain ⟨users2, hu1, hu2⟩ := updateUserDoc_of_findUser_some s.users uid
    (fun v => { v with subscriptionStatus := some "canceling",
                       cancelAtPeriodEnd := some true, updatedAt := some now1 })
    u (fun v => rfl) hu
  have hc1 : cancelSubscription procSubs now1 sid uid s =
      (.success "Subscription will be cancelled at period end", subs2,
       { s with users := users2 }) := by
    simp only [cancelSubscription, hp1, hu1]
  obtain ⟨subs3, hp1b, hp2b⟩ := updateProcSubscription_of_findSub subs2 sid
    { p with cancel_at_period_end := true } hp2
  obtain ⟨users3, hu1b, hu2b⟩ := updateUserDoc_of_findUser_some users2 uid
    (fun v => { v with subscriptionStatus := some "canceling",
                       cancelAtPeriodEnd := some true, updatedAt := some now2 })
    _ (fun v => rfl) hu2
  have hc2 : cancelSubscription subs2 now2 sid uid { s with users := users2 } =
      (.success "Subscription will be cancelled at period end", subs3,
       { { s with users := users2 } with users := users3 }) := by
    simp only [cancelSubscription, hp1b, hu1b]
  rw [hc1]
  refine ⟨rfl, ?_, ⟨_, hp2, rfl⟩, ?_, ⟨_, hu2, rfl, rfl⟩, ?_⟩
  · rw [hc2]
  · rw [hc2]
    exact ⟨_, hp2b, rfl⟩
  · rw [hc2]
    exact ⟨_, hu2b, rfl, rfl⟩

theorem cancelSubscription_idempotent_witness :
    (cancelSubscription [⟨"sub_1", false⟩] 1 "sub_1" "u1"
        ⟨[{ userId := "u1" }], [], []⟩).1 =
        .success "Subscription will be cancelled at period end" ∧
    (cancelSubscription (cancelSubscription [⟨"sub_1", false⟩] 1 "sub_1" "u1"
        ⟨[{ userId := "u1" }], [], []⟩).2.1 2 "sub_1" "u1"
        (cancelSubscription [⟨"sub_1", false⟩] 1 "sub_1" "u1"
          ⟨[{ userId := "u1" }], [], []⟩).2.2).1 =
      .success "Subscription will be cancelled at period end" ∧
    (∃ q, findSub (cancelSubscription [⟨"sub_1", false⟩] 1 "sub_1" "u1"
          ⟨[{ userId := "u1" }], [], []⟩).2.1 "sub_1" = some q ∧
       q.cancel_at_period_end = true) ∧
    (∃ q, findSub (cancelSubscription (cancelSubscription [⟨"sub_1", false⟩] 1 "sub_1" "u1"
          ⟨[{ userId := "u1" }], [], []⟩).2.1 2 "sub_1" "u1"
          (cancelSubscription [⟨"sub_1", false⟩] 1 "sub_1" "u1"
            ⟨[{ userId := "u1" }], [], []⟩).2.2).2.1 "sub_1" = some q ∧
       q.cancel_at_period_end = true) ∧
    (∃ v, findUser (cancelSubscription [⟨"sub_1", false⟩] 1 "sub_1" "u1"
          ⟨[{ userId := "u1" }], [], []⟩).2.2.users "u1" = some v ∧
       v.subscriptionStatus = some "canceling" ∧ v.cancelAtPeriodEnd = some true) ∧
    (∃ v, findUser (cancelSubscription (cancelSubscription [⟨"sub_1", false⟩] 1 "sub_1" "u1"
          ⟨[{ userId := "u1" }], [], []⟩).2.1 2 "sub_1" "u1"
          (cancelSubscription [⟨"sub_1", false⟩] 1 "sub_1" "u1"
            ⟨[{ userId := "u1" }], [], []⟩).2.2).2.2.users "u1" = some v ∧
       v.subscriptionStatus = some "canceling" ∧ v.cancelAtPeriodEnd = some true) :=
  cancelSubscription_idempotent [⟨"sub_1", false⟩] 1 2 "sub_1" "u1"
    ⟨[{ userId := "u1" }], [], []⟩ ⟨"sub_1", false⟩ { userId := "u1" } rfl rfl

theorem forall2_history_refl (l : List UserRecord) :
    List.Forall₂ (fun u v => u.paymentHistory <+: v.paymentHistory) l l := by
  induction l with
  | nil => exact List.Forall₂.nil
  | cons u rest ih => exact List.Forall₂.cons List.prefix_rfl ih

theorem prefix_arrayUnion (xs : List PaymentEntry) (e : PaymentEntry) :
    xs <+: arrayUnion xs e := by
  rw [arrayUnion]
  split
  · exact List.prefix_rfl
  · exact List.prefix_append xs [e]

theorem forall2_updateFirstMatch (cid : String) (f : UserRecord → UserRecord)
    (hf : ∀ v, v.paymentHistory <+: (f v).paymentHistory) (l : List UserRecord) :
    List.Forall₂ (fun u v => u.paymentHistory <+: v.paymentHistory)
      l (updateFirstMatch cid f l) := by
  induction l with
  | nil => exact List.Forall₂.nil
  | cons u rest ih =>
    rw [updateFirstMatch]
    by_cases hq : u.stripeCustomerId = some cid
    · rw [if_pos hq]
      exact List.Forall₂.cons (hf u) (forall2_history_refl rest)
    · rw [if_neg hq]
      exact List.Forall₂.cons List.prefix_rfl ih

theorem forall2_updateUserDoc (uid : String) (f : UserRecord → UserRecord)
    (users users2 : List UserRecord) (h : updateUserDoc users uid f = .ok users2)
    (hf : ∀ v, v.paymentHistory <+: (f v).paymentHistory) :
    List.Forall₂ (fun u v => u.paymentHistory <+: v.paymentHistory) users users2 := by
  induction users generalizing users2 with
  | nil => simp [updateUserDoc] at h
  | cons u rest ih =>
    rw [updateUserDoc] at h
    by_cases hq : (u.userId == uid) = true
    · rw [if_pos hq] at h
      injection h with h
      subst h
      exact List.Forall₂.cons (hf u) (forall2_history_refl rest)
    · rw [if_neg hq] at h
      cases hrec : updateUserDoc rest uid f with
      | error m =>
        rw [hrec] at h
        simp [Except.map] at h
      | ok rest2 =>
        rw [hrec] at h
        simp only [Except.map] at h
        injection h with h
        subst h
        exact List.Forall₂.cons List.prefix_rfl (ih rest2 hrec)

/-- C9: every operation of the system — create-subscription,
cancel-subscription and webhook handling — only ever extends payment
histories: each user document keeps its position and its previous
payment history is a prefix of the new one (no entry modified or
removed). -/
theorem payment_history_append_only :
    (∀ (env : ProcEnv) (now : Nat) (req : CreateSubRequest) (s : LedgerStore),
       historyExtended s (createSubscription env now req s).2.1) ∧
    (∀ (procSubs : List ProcSubscription) (now : Nat) (sid uid : String)
       (s : LedgerStore),
       historyExtended s (cancelSubscription procSubs now sid uid s).2.2) ∧
    (∀ (auth : Except String StripeEvent) (nowIso : String) (now : Nat)
       (s : LedgerStore),
       historyExtended s (handleWebhook auth nowIso now s).2) := by
  refine ⟨?_, ?_, ?_⟩
  · intro env now req s
    rw [historyExtended]
    simp only [createSubscription]
    repeat' split
    all_goals
      first
        | exact forall2_history_refl s.users
        | (rename updateUserDoc _ _ _ = Except.ok _ => heq
           exact forall2_updateUserDoc _ _ _ _ heq (fun v => List.prefix_rfl))
  · intro procSubs now sid uid s
    rw [historyExtended]
    simp only [cancelSubscription]
    repeat' split
    all_goals
      first
        | exact forall2_history_refl s.users
        | (rename updateUserDoc _ _ _ = Except.ok _ => heq
           exact forall2_updateUserDoc _ _ _ _ heq (fun v => List.prefix_rfl))
  · intro auth nowIso now s
    rw [historyExtended]
    cases auth with
    | error m => exact forall2_history_refl s.users
    | ok event =>
      cases event with
      | invoicePaymentSucceeded inv =>
        exact forall2_updateFirstMatch inv.customer
          (fun u =>
            { u with
                subscriptionStatus := some "active"
                lastPayment := some now
                paymentHistory := arrayUnion u.paymentHistory
                  ⟨nowIso, (inv.amount_paid : ℚ) / 100, inv.id⟩ })
          (fun v => prefix_arrayUnion v.paymentHistory _) s.users
      | invoicePaymentFailed inv => exact forall2_history_refl s.users
      | customerSubscriptionDeleted sub =>
        exact forall2_updateFirstMatch sub.customer
          (fun u =>
            { u with
                subscriptionStatus := some "cancelled"
                subscriptionEndedAt := some now })
          (fun v => List.prefix_rfl) s.users
      | otherEvent t => exact forall2_history_refl s.users
